import Mathlib

/-!
Shallow embedding of the two scripts of `exif-scripts`
(`exif-from-filename.py` and `exif-gps.py`).

Conventions of the embedding:
* Python floats are modelled as rationals (`ℚ`); the comparisons the scripts
  perform on them (`<`, `>`, `>=`, `abs`) agree with the rational ones on all
  non-NaN inputs the scripts accept.
* Python strings are modelled as `String`, filenames as `List Char`.
* The external `exiftool` process is an oracle: its success/failure and its
  parsed JSON answer are explicit parameters of the modelled functions.
* The regex character class `\d` is modelled as the ASCII digits 0-9
  (`Char.isDigit`).
-/

namespace ExifScripts

/-! ### exif-gps.py, `validate_coordinates` (lines 8-20) -/

/-- `lat is not None and (lat < -90 or lat > 90)` -/
def latOutOfRange : Option ℚ → Bool
  | none => false
  | some v => decide (v < -90) || decide (v > 90)

/-- `lon is not None and (lon < -180 or lon > 180)` -/
def lonOutOfRange : Option ℚ → Bool
  | none => false
  | some v => decide (v < -180) || decide (v > 180)

/-- `validate_coordinates(lat, lon)`: returns `(ok, message)`. -/
def validate_coordinates (lat lon : Option ℚ) : Bool × String :=
  if latOutOfRange lat then
    (false, "Latitude must be between -90 and 90 degrees")
  else if lonOutOfRange lon then
    (false, "Longitude must be between -180 and 180 degrees")
  else
    (true, "Valid coordinates")

/-! ### exif-gps.py, `update_gps_data` (lines 93-135)

The pure heart of `update_gps_data` is the computation (lines 104-113) of the
four values placed into the `exiftool` command (lines 116-124):
`-GPSLatitude=abs_lat -GPSLatitudeRef=lat_ref -GPSLongitude=abs_lon
-GPSLongitudeRef=lon_ref`.  We return them in command order. -/

/-- Values passed to the external tool: `(abs_lat, lat_ref, abs_lon, lon_ref)`.
When `lat_ref is None or lon_ref is None` (any arm other than some/some) both
references are derived from the signs and the magnitudes are absolute values;
otherwise the raw values and the provided references are used unchanged. -/
def update_gps_command_values (latitude longitude : ℚ) :
    Option String → Option String → ℚ × String × ℚ × String
  | some lr, some nr => (latitude, lr, longitude, nr)
  | _, _ =>
      (|latitude|, if latitude ≥ 0 then "N" else "S",
       |longitude|, if longitude ≥ 0 then "E" else "W")

/-! ### exif-gps.py, `extract_gps_from_image` (lines 22-91)

The subprocess/JSON plumbing is folded into an oracle argument; the pure field
extraction from the first JSON record (lines 58-78) is modelled exactly. -/

/-- The first JSON record returned by the external tool: each GPS field may be
present or absent. -/
structure ExifRecord where
  gpsLatitude : Option ℚ
  gpsLongitude : Option ℚ
  gpsLatitudeRef : Option String
  gpsLongitudeRef : Option String
deriving DecidableEq

/-- The `gps_data` dict built by `extract_gps_from_image`. -/
structure GpsData where
  latitude : ℚ
  longitude : ℚ
  latitude_ref : String
  longitude_ref : String
  signed_latitude : ℚ
  signed_longitude : ℚ
deriving DecidableEq

/-- Lines 58-78: requires both `GPSLatitude` and `GPSLongitude` in the first
record; defaults `GPSLatitudeRef` to `"N"` and `GPSLongitudeRef` to `"E"` via
`data[0].get(key, default)`; computes signed display values. -/
def extract_gps_from_record (r : ExifRecord) : Option GpsData :=
  match r.gpsLatitude, r.gpsLongitude with
  | some lat, some lon =>
      let lat_ref := r.gpsLatitudeRef.getD "N"
      let lon_ref := r.gpsLongitudeRef.getD "E"
      some ⟨lat, lon, lat_ref, lon_ref,
            if lat_ref = "S" then -lat else lat,
            if lon_ref = "W" then -lon else lon⟩
  | _, _ => none

/-- `extract_gps_from_image`: `None` when the source image does not exist, when
the tool fails or its output is unparseable (oracle `none`), or when the JSON
array is empty; otherwise field extraction from the first record. -/
def extract_gps_from_image (source_exists : Bool)
    (tool_records : Option (List ExifRecord)) : Option GpsData :=
  if source_exists = false then none
  else
    match tool_records with
    | none => none
    | some [] => none
    | some (r :: _) => extract_gps_from_record r

/-- exif-gps.py `main`, copy branch (lines 193-199): the extracted magnitudes
and reference letters are handed to `update_gps_data` with explicit
references. -/
def copy_gps_command_values (r : ExifRecord) : Option (ℚ × String × ℚ × String) :=
  match extract_gps_from_record r with
  | some g => some (update_gps_command_values g.latitude g.longitude
      (some g.latitude_ref) (some g.longitude_ref))
  | none => none

/-! ### exif-from-filename.py, `update_exif_date` (lines 42-66): the exiftool
command built for a date tuple. -/

/-- Lines 49-60: one command setting `DateTimeOriginal`, `CreateDate` and
`ModifyDate` to the same `"YYYY:MM:DD 12:00:00"` string. -/
def update_exif_date_command (file_path : String)
    (date_tuple : String × String × String) : List String :=
  let date_string :=
    date_tuple.1 ++ ":" ++ date_tuple.2.1 ++ ":" ++ date_tuple.2.2 ++ " 12:00:00"
  ["exiftool",
   "-DateTimeOriginal=" ++ date_string,
   "-CreateDate=" ++ date_string,
   "-ModifyDate=" ++ date_string,
   "-overwrite_original",
   file_path]

/-! ### exif-from-filename.py, `main` (lines 80-81): file selection

`glob.glob(os.path.join(path, "*.jpg"))` selects, non-recursively, exactly the
directory entries matching the glob pattern `*.jpg`: an arbitrary (possibly
empty) run of characters, not starting with a leading dot (glob hides
dotfiles), followed by the literal four characters `.jpg`. -/

/-- Whether a directory entry matches the glob pattern `*.jpg`. -/
def glob_match_star_jpg (name : List Char) : Bool :=
  match name with
  | [] => false
  | c :: _ => c != '.' && List.isSuffixOf ['.', 'j', 'p', 'g'] name

/-! ### exif-from-filename.py, `extract_date_from_filename` (lines 9-40)

The three regexes are embedded with `re.search` semantics: scan positions left
to right, at each position attempt the pattern; the lookahead
`(?=\.[^.]+$)` demands that the rest of the string be a dot followed by one or
more non-dot characters (i.e. the match ends right before the final extension
separator). -/

/-- `[^.]*` as a predicate: no dot occurs in `l`. -/
def noDot (l : List Char) : Bool := l.all (fun c => c != '.')

/-- The lookahead `(?=\.[^.]+$)` applied to the remainder of the string. -/
def extLookahead : List Char → Bool
  | [] => false
  | c :: t => c == '.' && (!t.isEmpty && noDot t)

/-- One attempt of `-(\d{4})-(\d{2})-(\d{2})(?=\.[^.]+$)` at the current
position, returning the three groups. -/
def tryFullDate : List Char → Option (List Char × List Char × List Char)
  | h :: y1 :: y2 :: y3 :: y4 :: g :: m1 :: m2 :: k :: d1 :: d2 :: rest =>
      if h == '-' && y1.isDigit && y2.isDigit && y3.isDigit && y4.isDigit
          && g == '-' && m1.isDigit && m2.isDigit
          && k == '-' && d1.isDigit && d2.isDigit
          && extLookahead rest
      then some ([y1, y2, y3, y4], [m1, m2], [d1, d2]) else none
  | _ => none

/-- `re.search` of the full-date pattern. -/
def searchFullDate : List Char → Option (List Char × List Char × List Char)
  | [] => none
  | c :: rest =>
      match tryFullDate (c :: rest) with
      | some r => some r
      | none => searchFullDate rest

/-- One attempt of `-(\d{4})-(\d{2})(?=\.[^.]+$)` at the current position. -/
def tryYearMonth : List Char → Option (List Char × List Char)
  | h :: y1 :: y2 :: y3 :: y4 :: g :: m1 :: m2 :: rest =>
      if h == '-' && y1.isDigit && y2.isDigit && y3.isDigit && y4.isDigit
          && g == '-' && m1.isDigit && m2.isDigit
          && extLookahead rest
      then some ([y1, y2, y3, y4], [m1, m2]) else none
  | _ => none

/-- `re.search` of the year-month pattern. -/
def searchYearMonth : List Char → Option (List Char × List Char)
  | [] => none
  | c :: rest =>
      match tryYearMonth (c :: rest) with
      | some r => some r
      | none => searchYearMonth rest

/-- One attempt of `-(\d{4})(?=\.[^.]+$)` at the current position. -/
def tryYear : List Char → Option (List Char)
  | h :: y1 :: y2 :: y3 :: y4 :: rest =>
      if h == '-' && y1.isDigit && y2.isDigit && y3.isDigit && y4.isDigit
          && extLookahead rest
      then some [y1, y2, y3, y4] else none
  | _ => none

/-- `re.search` of the year pattern. -/
def searchYear : List Char → Option (List Char)
  | [] => none
  | c :: rest =>
      match tryYear (c :: rest) with
      | some r => some r
      | none => searchYear rest

/-- `os.path.basename`: everything after the last '/'. -/
def basename (l : List Char) : List Char :=
  (l.reverse.takeWhile (fun c => c != '/')).reverse

/-- `extract_date_from_filename` (lines 9-40): the priority chain.  (In the
source the guards `and not full_date_match` / `and not year_month_match` are
vacuous because a successful earlier match has already returned.) -/
def extract_date_from_filename (filename : List Char) :
    Option (String × String × String) :=
  match searchFullDate (basename filename) with
  | some (y, m, d) => some (String.mk y, String.mk m, String.mk d)
  | none =>
      match searchYearMonth (basename filename) with
      | some (y, m) => some (String.mk y, String.mk m, "01")
      | none =>
          match searchYear (basename filename) with
          | some y => some (String.mk y, "01", "01")
          | none => none

/-- The trailing segment `-YYYY-MM-DD` of a stem. -/
def fullDateSeg (y1 y2 y3 y4 m1 m2 d1 d2 : Char) : List Char :=
  ['-', y1, y2, y3, y4, '-', m1, m2, '-', d1, d2]

/-- The trailing segment `-YYYY-MM` of a stem. -/
def yearMonthSeg (y1 y2 y3 y4 m1 m2 : Char) : List Char :=
  ['-', y1, y2, y3, y4, '-', m1, m2]

/-- The trailing segment `-YYYY` of a stem. -/
def yearSeg (y1 y2 y3 y4 : Char) : List Char :=
  ['-', y1, y2, y3, y4]

/-- The spec's "pattern `-YYYY-MM-DD` immediately before the extension
separator": the basename decomposes as an arbitrary prefix, the segment, and a
dot followed by a nonempty dot-free extension. -/
def MatchesFullDate (l : List Char) : Prop :=
  ∃ u y1 y2 y3 y4 m1 m2 d1 d2 t,
    (y1.isDigit ∧ y2.isDigit ∧ y3.isDigit ∧ y4.isDigit ∧
     m1.isDigit ∧ m2.isDigit ∧ d1.isDigit ∧ d2.isDigit) ∧
    t ≠ [] ∧ noDot t = true ∧
    l = u ++ fullDateSeg y1 y2 y3 y4 m1 m2 d1 d2 ++ '.' :: t

/-- The spec's "pattern `-YYYY-MM` immediately before the extension
separator". -/
def MatchesYearMonth (l : List Char) : Prop :=
  ∃ u y1 y2 y3 y4 m1 m2 t,
    (y1.isDigit ∧ y2.isDigit ∧ y3.isDigit ∧ y4.isDigit ∧
     m1.isDigit ∧ m2.isDigit) ∧
    t ≠ [] ∧ noDot t = true ∧
    l = u ++ yearMonthSeg y1 y2 y3 y4 m1 m2 ++ '.' :: t

/-- The spec's "pattern `-YYYY` immediately before the extension separator". -/
def MatchesYear (l : List Char) : Prop :=
  ∃ u y1 y2 y3 y4 t,
    (y1.isDigit ∧ y2.isDigit ∧ y3.isDigit ∧ y4.isDigit) ∧
    t ≠ [] ∧ noDot t = true ∧
    l = u ++ yearSeg y1 y2 y3 y4 ++ '.' :: t

/-! ### exif-gps.py, `update_gps_data` and `main` as state functions -/

/-- `update_gps_data` (lines 93-135): `(success, command issued)`.  When the
image path does not exist it returns failure without running a command
(lines 100-102); otherwise the command is built from
`update_gps_command_values` and success is the external tool's exit status
`write_ok`. -/
def update_gps_data (image_exists write_ok : Bool) (latitude longitude : ℚ)
    (lat_ref lon_ref : Option String) : Bool × Option (ℚ × String × ℚ × String) :=
  if image_exists = false then (false, none)
  else (write_ok, some (update_gps_command_values latitude longitude lat_ref lon_ref))

/-- Command-line arguments and external world of exif-gps.py `main`:
`tool_records` is the parsed JSON answer of the extraction query (`none` for a
tool failure or unparseable output), `write_ok` the write invocation's exit
status. -/
structure GpsEnv where
  lat : Option ℚ
  lon : Option ℚ
  source_given : Bool
  image_exists : Bool
  source_exists : Bool
  tool_records : Option (List ExifRecord)
  write_ok : Bool

/-- exif-gps.py `main` (lines 137-206) as the exit status it terminates with.
argparse enforces the required mutually exclusive group `--lat`/`--from`
(exits 2 on violation), and `parser.error` (line 155) exits 2 when `--lat`
comes without `--lon`; the explicit fatal branches call `sys.exit(1)`;
falling off the end exits 0. -/
def gps_main (env : GpsEnv) : Nat :=
  if env.lat.isSome && env.source_given then 2
  else if !env.lat.isSome && !env.source_given then 2
  else if env.lat.isSome && !env.lon.isSome then 2
  else if env.image_exists = false then 1
  else
    match env.lat, env.lon with
    | some la, some lo =>
        if (validate_coordinates (some la) (some lo)).1 = false then 1
        else if (update_gps_data env.image_exists env.write_ok la lo none none).1 then 0
        else 1
    | _, _ =>
        match extract_gps_from_image env.source_exists env.tool_records with
        | some g =>
            if (update_gps_data env.image_exists env.write_ok g.latitude g.longitude
                (some g.latitude_ref) (some g.longitude_ref)).1 then 0
            else 1
        | none => 1

/-! ### exif-from-filename.py, `main` (lines 68-112) as a state function -/

/-- One iteration of the per-file loop (lines 92-110) over the
`(processed, skipped)` accumulator; `tool` is the external tool's per-file
exit status for `update_exif_date`. -/
def process_file (tool : List Char → Bool) (acc : Nat × Nat)
    (f : List Char) : Nat × Nat :=
  match extract_date_from_filename f with
  | some _ => if tool f then (acc.1 + 1, acc.2) else (acc.1, acc.2 + 1)
  | none => (acc.1, acc.2 + 1)

/-- exif-from-filename.py `main`: `(exit status, processed, skipped)`.  A
missing path exits 1 (line 77); otherwise the glob-selected files are folded
through `process_file` and the script falls off the end (exit 0) whatever the
per-file tool outcomes were. -/
def filename_main (path_exists : Bool) (entries : List (List Char))
    (tool : List Char → Bool) : Nat × Nat × Nat :=
  if path_exists = false then (1, 0, 0)
  else
    let counts := (entries.filter glob_match_star_jpg).foldl (process_file tool) (0, 0)
    (0, counts.1, counts.2)

/-! ## Theorems -/

theorem latOutOfRange_eq_false_iff (lat : Option ℚ) :
    latOutOfRange lat = false ↔ ∀ v, lat = some v → -90 ≤ v ∧ v ≤ 90 := by
  cases lat with
  | none => simp [latOutOfRange]
  | some v =>
      simp [latOutOfRange, not_lt]

theorem lonOutOfRange_eq_false_iff (lon : Option ℚ) :
    lonOutOfRange lon = false ↔ ∀ v, lon = some v → -180 ≤ v ∧ v ≤ 180 := by
  cases lon with
  | none => simp [lonOutOfRange]
  | some v =>
      simp [lonOutOfRange, not_lt]

/-- C3: the coordinate validator accepts exactly when every present value is in
range (latitude in [-90, 90], longitude in [-180, 180], both inclusive; absent
values vacuously valid), and on rejection the message names the violated
bound. -/
theorem validate_coordinates_spec :
    (∀ lat lon : Option ℚ,
      ((validate_coordinates lat lon).1 = true ↔
        ((∀ v, lat = some v → -90 ≤ v ∧ v ≤ 90) ∧
         (∀ v, lon = some v → -180 ≤ v ∧ v ≤ 180))))
  ∧ (∀ lat lon : Option ℚ, ∀ v, lat = some v → (v < -90 ∨ 90 < v) →
      validate_coordinates lat lon =
        (false, "Latitude must be between -90 and 90 degrees"))
  ∧ (∀ lat lon : Option ℚ, ∀ v, lon = some v → (v < -180 ∨ 180 < v) →
      (∀ w, lat = some w → -90 ≤ w ∧ w ≤ 90) →
      validate_coordinates lat lon =
        (false, "Longitude must be between -180 and 180 degrees")) := by
  refine ⟨?_, ?_, ?_⟩
  · intro lat lon
    by_cases h1 : latOutOfRange lat
    · simp only [validate_coordinates, h1, if_true]
      constructor
      · intro h; exact absurd h (by simp)
      · rintro ⟨ha, _⟩
        rw [← latOutOfRange_eq_false_iff] at ha
        rw [ha] at h1; exact absurd h1 (by simp)
    · by_cases h2 : lonOutOfRange lon
      · simp only [validate_coordinates, h1, h2, if_true, if_false, Bool.false_eq_true]
        constructor
        · intro h; exact absurd h (by simp)
        · rintro ⟨_, hb⟩
          rw [← lonOutOfRange_eq_false_iff] at hb
          rw [hb] at h2; exact absurd h2 (by simp)
      · simp only [validate_coordinates, h1, h2, if_false, Bool.false_eq_true]
        constructor
        · intro _
          exact ⟨(latOutOfRange_eq_false_iff lat).1 (by simpa using h1),
                 (lonOutOfRange_eq_false_iff lon).1 (by simpa using h2)⟩
        · intro _; trivial
  · intro lat lon v hv hout
    have h1 : latOutOfRange lat = true := by
      subst hv
      simp only [latOutOfRange, Bool.or_eq_true, decide_eq_true_eq]
      rcases hout with h | h
      · exact Or.inl h
      · exact Or.inr h
    simp [validate_coordinates, h1]
  · intro lat lon v hv hout hin
    have h1 : latOutOfRange lat = false := (latOutOfRange_eq_false_iff lat).2 hin
    have h2 : lonOutOfRange lon = true := by
      subst hv
      simp only [lonOutOfRange, Bool.or_eq_true, decide_eq_true_eq]
      rcases hout with h | h
      · exact Or.inl h
      · exact Or.inr h
    simp [validate_coordinates, h1, h2]

/-- Witness for C3: lat=90, lon=180 accepted; lat=91 rejected with the latitude
message; lon=181 (with lat in range) rejected with the longitude message;
lat=-90.0001 rejected. -/
theorem validate_coordinates_spec_witness :
    ((validate_coordinates (some 90) (some 180)).1 = true ↔
        ((∀ v, (some (90:ℚ)) = some v → -90 ≤ v ∧ v ≤ 90) ∧
         (∀ v, (some (180:ℚ)) = some v → -180 ≤ v ∧ v ≤ 180)))
  ∧ validate_coordinates (some 91) (some 0) =
      (false, "Latitude must be between -90 and 90 degrees")
  ∧ validate_coordinates (some 0) (some 181) =
      (false, "Longitude must be between -180 and 180 degrees")
  ∧ validate_coordinates (some (-900001/10000)) (some 0) =
      (false, "Latitude must be between -90 and 90 degrees") :=
  ⟨validate_coordinates_spec.1 (some 90) (some 180),
   validate_coordinates_spec.2.1 (some 91) (some 0) 91 rfl (by norm_num),
   validate_coordinates_spec.2.2 (some 0) (some 181) 181 rfl (by norm_num)
     (by rintro w hw; cases hw; norm_num),
   validate_coordinates_spec.2.1 (some (-900001/10000)) (some 0) (-900001/10000) rfl
     (by norm_num)⟩

/-- C4: with no explicit reference letters, the reference is derived from the
sign (`N` iff latitude ≥ 0, `E` iff longitude ≥ 0) and the written magnitudes
are the absolute values; exactly 0.0 yields `N` / `E`. -/
theorem update_gps_signed_derivation :
    (∀ latitude longitude : ℚ,
      update_gps_command_values latitude longitude none none =
        (|latitude|, if latitude ≥ 0 then "N" else "S",
         |longitude|, if longitude ≥ 0 then "E" else "W"))
  ∧ update_gps_command_values 0 0 none none = (0, "N", 0, "E") := by
  constructor
  · intro la lo; rfl
  · simp [update_gps_command_values]

/-- C5: the copy path hands the source's extracted magnitudes and reference
letters to the write command unchanged (no round-trip through signed decimal);
the signed values are for display only, obtained by negating the magnitude
exactly when the reference is `S` / `W`. -/
theorem copy_preserves_source_values (r : ExifRecord) (g : GpsData)
    (h : extract_gps_from_record r = some g) :
    copy_gps_command_values r =
      some (g.latitude, g.latitude_ref, g.longitude, g.longitude_ref)
  ∧ update_gps_command_values g.latitude g.longitude
      (some g.latitude_ref) (some g.longitude_ref) =
      (g.latitude, g.latitude_ref, g.longitude, g.longitude_ref)
  ∧ g.signed_latitude = (if g.latitude_ref = "S" then -g.latitude else g.latitude)
  ∧ g.signed_longitude = (if g.longitude_ref = "W" then -g.longitude else g.longitude) := by
  refine ⟨?_, rfl, ?_, ?_⟩
  · simp [copy_gps_command_values, h, update_gps_command_values]
  all_goals
    rcases r with ⟨a, b, c, d⟩
    rcases a with _ | la <;> rcases b with _ | lo <;>
      simp [extract_gps_from_record] at h
    rcases h with ⟨rfl⟩
    simp

/-- Witness for C5: magnitude 45 with reference `S` displays as signed -45 and
is written back as exactly (45, `S`). -/
theorem copy_preserves_source_values_witness :
    copy_gps_command_values ⟨some 45, some 10, some "S", some "W"⟩ =
      some (45, "S", 10, "W")
  ∧ update_gps_command_values 45 10 (some "S") (some "W") = (45, "S", 10, "W")
  ∧ (-45 : ℚ) = (if ("S" : String) = "S" then -(45:ℚ) else 45)
  ∧ (-10 : ℚ) = (if ("W" : String) = "W" then -(10:ℚ) else 10) :=
  copy_preserves_source_values ⟨some 45, some 10, some "S", some "W"⟩
    ⟨45, 10, "S", "W", -45, -10⟩ (by simp [extract_gps_from_record])

/-- C9: whenever the first record holds both `GPSLatitude` and `GPSLongitude`,
extraction succeeds and defaults an absent `GPSLatitudeRef` to `"N"` and an
absent `GPSLongitudeRef` to `"E"`; the copy path then writes exactly those
(possibly fabricated) references. -/
theorem extract_gps_defaults_refs (r : ExifRecord) (lat lon : ℚ)
    (hlat : r.gpsLatitude = some lat) (hlon : r.gpsLongitude = some lon) :
    extract_gps_from_record r =
      some ⟨lat, lon, r.gpsLatitudeRef.getD "N", r.gpsLongitudeRef.getD "E",
        (if r.gpsLatitudeRef.getD "N" = "S" then -lat else lat),
        (if r.gpsLongitudeRef.getD "E" = "W" then -lon else lon)⟩
  ∧ copy_gps_command_values r =
      some (lat, r.gpsLatitudeRef.getD "N", lon, r.gpsLongitudeRef.getD "E") := by
  rcases r with ⟨a, b, c, d⟩
  cases hlat; cases hlon
  refine ⟨rfl, ?_⟩
  simp [copy_gps_command_values, extract_gps_from_record, update_gps_command_values]

/-- Witness for C9: a record with both coordinates and no reference fields
extracts with fabricated references `N` and `E`, and those are what a copy
writes. -/
theorem extract_gps_defaults_refs_witness :
    extract_gps_from_record ⟨some 1, some 2, none, none⟩ =
      some ⟨1, 2, "N", "E",
        (if ("N" : String) = "S" then -(1:ℚ) else 1),
        (if ("E" : String) = "W" then -(2:ℚ) else 2)⟩
  ∧ copy_gps_command_values ⟨some 1, some 2, none, none⟩ = some (1, "N", 2, "E") :=
  extract_gps_defaults_refs ⟨some 1, some 2, none, none⟩ 1 2 rfl rfl

/-- C10: for every date tuple and file path, one single command is built, and
all three tags `DateTimeOriginal`, `CreateDate`, `ModifyDate` receive the same
string `"year:month:day 12:00:00"` (fixed noon time). -/
theorem update_exif_date_command_spec (p y m d : String) :
    ∃ ds, update_exif_date_command p (y, m, d) =
      ["exiftool",
       "-DateTimeOriginal=" ++ ds,
       "-CreateDate=" ++ ds,
       "-ModifyDate=" ++ ds,
       "-overwrite_original",
       p]
    ∧ ds = y ++ ":" ++ m ++ ":" ++ d ++ " 12:00:00" :=
  ⟨y ++ ":" ++ m ++ ":" ++ d ++ " 12:00:00", rfl, rfl⟩

/-- C6 counterexample: in a directory containing `a-2000-01-15.jpg`,
`b-2000.jpeg` and `c.png`, the scan does NOT consider the claimed two files:
the glob pattern `*.jpg` leaves out `b-2000.jpeg`. -/
theorem glob_scan_counterexample :
    ¬ (["a-2000-01-15.jpg".toList, "b-2000.jpeg".toList, "c.png".toList].filter
        glob_match_star_jpg =
       ["a-2000-01-15.jpg".toList, "b-2000.jpeg".toList])
  ∧ glob_match_star_jpg ("b-2000.jpeg".toList) = false := by
  constructor
  · decide
  · decide

/-- C6 amended: the batch date-updater scans the directory non-recursively with
the case-sensitive glob pattern `*.jpg` (exact lowercase extension `.jpg` only;
`.jpeg` and upper-case variants are not matched, dotfiles are hidden); in the
example directory exactly the single file `a-2000-01-15.jpg` is considered. -/
theorem glob_scan_amended :
    (["a-2000-01-15.jpg".toList, "b-2000.jpeg".toList, "c.png".toList].filter
        glob_match_star_jpg = ["a-2000-01-15.jpg".toList])
  ∧ glob_match_star_jpg ("b-2000.jpeg".toList) = false
  ∧ glob_match_star_jpg ("B-2000-01-15.JPG".toList) = false
  ∧ (∀ name : List Char, glob_match_star_jpg name = true ↔
      ((∃ w, name = w ++ ['.', 'j', 'p', 'g']) ∧ name.head? ≠ some '.')) := by
  refine ⟨by decide, by decide, by decide, ?_⟩
  intro name
  cases name with
  | nil => simp [glob_match_star_jpg]
  | cons c t =>
      constructor
      · intro h
        simp only [glob_match_star_jpg, Bool.and_eq_true, bne_iff_ne] at h
        obtain ⟨hc, hs⟩ := h
        obtain ⟨w, hw⟩ := List.isSuffixOf_iff_suffix.1 hs
        exact ⟨⟨w, hw.symm⟩, by simpa using hc⟩
      · rintro ⟨⟨w, hw⟩, hh⟩
        simp only [glob_match_star_jpg, Bool.and_eq_true, bne_iff_ne]
        exact ⟨by simpa using hh, List.isSuffixOf_iff_suffix.2 ⟨w, hw.symm⟩⟩

theorem noDot_iff (l : List Char) : noDot l = true ↔ ∀ c ∈ l, c ≠ '.' := by
  simp [noDot]

theorem extLookahead_shape (l : List Char) (h : extLookahead l = true) :
    ∃ t, l = '.' :: t ∧ t ≠ [] ∧ noDot t = true := by
  cases l with
  | nil => simp [extLookahead] at h
  | cons c t =>
      simp only [extLookahead, Bool.and_eq_true, beq_iff_eq] at h
      obtain ⟨rfl, h2, h3⟩ := h
      refine ⟨t, rfl, ?_, h3⟩
      intro hnil
      subst hnil
      simp at h2

theorem extLookahead_cons (t : List Char) (ht : t ≠ []) (hnd : noDot t = true) :
    extLookahead ('.' :: t) = true := by
  rcases t with _ | ⟨c, t2⟩
  · exact absurd rfl ht
  · simpa [extLookahead] using hnd

/-- The last-dot decomposition of a string is unique: if the tail after a dot
is dot-free, the dot is the final one. -/
theorem lastDot_unique {u t v s : List Char}
    (h : u ++ '.' :: t = v ++ '.' :: s)
    (ht : noDot t = true) (hs : noDot s = true) : u = v ∧ t = s := by
  induction u generalizing v with
  | nil =>
      cases v with
      | nil => simpa using h
      | cons c v2 =>
          exfalso
          simp only [List.nil_append, List.cons_append, List.cons.injEq] at h
          obtain ⟨hc, hts⟩ := h
          have hmem : ('.' : Char) ∈ t := by
            rw [hts]; exact List.mem_append_right _ (List.mem_cons_self _ _)
          exact absurd rfl ((noDot_iff t).1 ht '.' hmem)
  | cons c u2 ih =>
      cases v with
      | nil =>
          exfalso
          simp only [List.nil_append, List.cons_append, List.cons.injEq] at h
          obtain ⟨hc, hts⟩ := h
          have hmem : ('.' : Char) ∈ s := by
            rw [← hts]; exact List.mem_append_right _ (List.mem_cons_self _ _)
          exact absurd rfl ((noDot_iff s).1 hs '.' hmem)
      | cons c2 v2 =>
          simp only [List.cons_append, List.cons.injEq] at h
          obtain ⟨rfl, h2⟩ := h
          obtain ⟨h3, h4⟩ := ih h2
          exact ⟨by rw [h3], h4⟩

theorem tryFullDate_shape (l : List Char) (r : List Char × List Char × List Char)
    (h : tryFullDate l = some r) :
    ∃ y1 y2 y3 y4 m1 m2 d1 d2 t,
      (y1.isDigit ∧ y2.isDigit ∧ y3.isDigit ∧ y4.isDigit ∧
       m1.isDigit ∧ m2.isDigit ∧ d1.isDigit ∧ d2.isDigit) ∧
      t ≠ [] ∧ noDot t = true ∧
      l = fullDateSeg y1 y2 y3 y4 m1 m2 d1 d2 ++ '.' :: t ∧
      r = ([y1, y2, y3, y4], [m1, m2], [d1, d2]) := by
  unfold tryFullDate at h
  split at h
  · split at h
    · next hc =>
        simp only [Bool.and_eq_true, beq_iff_eq, and_assoc] at hc
        obtain ⟨rfl, hy1, hy2, hy3, hy4, rfl, hm1, hm2, rfl, hd1, hd2, hla⟩ := hc
        obtain ⟨t, rfl, htne, htnd⟩ := extLookahead_shape _ hla
        injection h with h
        exact ⟨_, _, _, _, _, _, _, _, t,
          ⟨hy1, hy2, hy3, hy4, hm1, hm2, hd1, hd2⟩, htne, htnd,
          by simp [fullDateSeg], h.symm⟩
    · exact absurd h (by simp)
  · exact absurd h (by simp)

theorem tryFullDate_of_seg (y1 y2 y3 y4 m1 m2 d1 d2 : Char) (t : List Char)
    (hy1 : y1.isDigit) (hy2 : y2.isDigit) (hy3 : y3.isDigit) (hy4 : y4.isDigit)
    (hm1 : m1.isDigit) (hm2 : m2.isDigit) (hd1 : d1.isDigit) (hd2 : d2.isDigit)
    (ht : t ≠ []) (hnd : noDot t = true) :
    tryFullDate (fullDateSeg y1 y2 y3 y4 m1 m2 d1 d2 ++ '.' :: t) =
      some ([y1, y2, y3, y4], [m1, m2], [d1, d2]) := by
  simp [fullDateSeg, tryFullDate, hy1, hy2, hy3, hy4, hm1, hm2, hd1, hd2,
    extLookahead_cons t ht hnd]

theorem tryFullDate_none_of_len (l u t : List Char) (hl : l = u ++ '.' :: t)
    (hnd : noDot t = true) (hu : u.length ≠ 11) : tryFullDate l = none := by
  cases hfd : tryFullDate l with
  | none => rfl
  | some r =>
      exfalso
      obtain ⟨y1, y2, y3, y4, m1, m2, d1, d2, s, _, _, hsnd, hl2, _⟩ :=
        tryFullDate_shape l r hfd
      rw [hl] at hl2
      obtain ⟨hpre, -⟩ := lastDot_unique hl2 hnd hsnd
      apply hu
      rw [hpre, fullDateSeg]
      rfl

theorem searchFullDate_cons (c : Char) (rest : List Char) :
    searchFullDate (c :: rest) =
      match tryFullDate (c :: rest) with
      | some r => some r
      | none => searchFullDate rest := rfl

theorem searchFullDate_matches (l : List Char)
    (r : List Char × List Char × List Char)
    (h : searchFullDate l = some r) : MatchesFullDate l := by
  induction l with
  | nil => simp [searchFullDate] at h
  | cons c rest ih =>
      unfold searchFullDate at h
      cases htry : tryFullDate (c :: rest) with
      | some r2 =>
          obtain ⟨y1, y2, y3, y4, m1, m2, d1, d2, t, hd, htne, htnd, hl, -⟩ :=
            tryFullDate_shape _ _ htry
          exact ⟨[], y1, y2, y3, y4, m1, m2, d1, d2, t, hd, htne, htnd,
            by simpa using hl⟩
      | none =>
          rw [htry] at h
          obtain ⟨u, y1, y2, y3, y4, m1, m2, d1, d2, t, hd, htne, htnd, hl⟩ := ih h
          exact ⟨c :: u, y1, y2, y3, y4, m1, m2, d1, d2, t, hd, htne, htnd,
            by simp [hl]⟩

theorem searchFullDate_pinned (u t : List Char) (y1 y2 y3 y4 m1 m2 d1 d2 : Char)
    (hy1 : y1.isDigit) (hy2 : y2.isDigit) (hy3 : y3.isDigit) (hy4 : y4.isDigit)
    (hm1 : m1.isDigit) (hm2 : m2.isDigit) (hd1 : d1.isDigit) (hd2 : d2.isDigit)
    (ht : t ≠ []) (hnd : noDot t = true) :
    searchFullDate (u ++ fullDateSeg y1 y2 y3 y4 m1 m2 d1 d2 ++ '.' :: t) =
      some ([y1, y2, y3, y4], [m1, m2], [d1, d2]) := by
  induction u with
  | nil =>
      have hseg : fullDateSeg y1 y2 y3 y4 m1 m2 d1 d2 ++ '.' :: t =
          '-' :: (y1 :: y2 :: y3 :: y4 :: '-' :: m1 :: m2 :: '-' :: d1 :: d2 :: '.' :: t) := by
        simp [fullDateSeg]
      rw [List.nil_append, hseg, searchFullDate_cons, ← hseg,
        tryFullDate_of_seg y1 y2 y3 y4 m1 m2 d1 d2 t hy1 hy2 hy3 hy4 hm1 hm2 hd1 hd2 ht hnd]
  | cons c u2 ih =>
      have hnone : tryFullDate (c :: (u2 ++ fullDateSeg y1 y2 y3 y4 m1 m2 d1 d2 ++ '.' :: t)) = none := by
        apply tryFullDate_none_of_len _ (c :: (u2 ++ fullDateSeg y1 y2 y3 y4 m1 m2 d1 d2)) t
        · simp [fullDateSeg]
        · exact hnd
        · simp [fullDateSeg]
      simp only [List.cons_append]
      rw [searchFullDate_cons, hnone]
      simpa using ih

theorem tryYearMonth_shape (l : List Char) (r : List Char × List Char)
    (h : tryYearMonth l = some r) :
    ∃ y1 y2 y3 y4 m1 m2 t,
      (y1.isDigit ∧ y2.isDigit ∧ y3.isDigit ∧ y4.isDigit ∧
       m1.isDigit ∧ m2.isDigit) ∧
      t ≠ [] ∧ noDot t = true ∧
      l = yearMonthSeg y1 y2 y3 y4 m1 m2 ++ '.' :: t ∧
      r = ([y1, y2, y3, y4], [m1, m2]) := by
  unfold tryYearMonth at h
  split at h
  · split at h
    · next hc =>
        simp only [Bool.and_eq_true, beq_iff_eq, and_assoc] at hc
        obtain ⟨rfl, hy1, hy2, hy3, hy4, rfl, hm1, hm2, hla⟩ := hc
        obtain ⟨t, rfl, htne, htnd⟩ := extLookahead_shape _ hla
        injection h with h
        exact ⟨_, _, _, _, _, _, t,
          ⟨hy1, hy2, hy3, hy4, hm1, hm2⟩, htne, htnd,
          by simp [yearMonthSeg], h.symm⟩
    · exact absurd h (by simp)
  · exact absurd h (by simp)

theorem tryYearMonth_of_seg (y1 y2 y3 y4 m1 m2 : Char) (t : List Char)
    (hy1 : y1.isDigit) (hy2 : y2.isDigit) (hy3 : y3.isDigit) (hy4 : y4.isDigit)
    (hm1 : m1.isDigit) (hm2 : m2.isDigit)
    (ht : t ≠ []) (hnd : noDot t = true) :
    tryYearMonth (yearMonthSeg y1 y2 y3 y4 m1 m2 ++ '.' :: t) =
      some ([y1, y2, y3, y4], [m1, m2]) := by
  simp [yearMonthSeg, tryYearMonth, hy1, hy2, hy3, hy4, hm1, hm2,
    extLookahead_cons t ht hnd]

theorem tryYearMonth_none_of_len (l u t : List Char) (hl : l = u ++ '.' :: t)
    (hnd : noDot t = true) (hu : u.length ≠ 8) : tryYearMonth l = none := by
  cases hfd : tryYearMonth l with
  | none => rfl
  | some r =>
      exfalso
      obtain ⟨y1, y2, y3, y4, m1, m2, s, _, _, hsnd, hl2, _⟩ :=
        tryYearMonth_shape l r hfd
      rw [hl] at hl2
      obtain ⟨hpre, -⟩ := lastDot_unique hl2 hnd hsnd
      apply hu
      rw [hpre, yearMonthSeg]
      rfl

theorem searchYearMonth_cons (c : Char) (rest : List Char) :
    searchYearMonth (c :: rest) =
      match tryYearMonth (c :: rest) with
      | some r => some r
      | none => searchYearMonth rest := rfl

theorem searchYearMonth_matches (l : List Char) (r : List Char × List Char)
    (h : searchYearMonth l = some r) : MatchesYearMonth l := by
  induction l with
  | nil => simp [searchYearMonth] at h
  | cons c rest ih =>
      unfold searchYearMonth at h
      cases htry : tryYearMonth (c :: rest) with
      | some r2 =>
          obtain ⟨y1, y2, y3, y4, m1, m2, t, hd, htne, htnd, hl, -⟩ :=
            tryYearMonth_shape _ _ htry
          exact ⟨[], y1, y2, y3, y4, m1, m2, t, hd, htne, htnd, by simpa using hl⟩
      | none =>
          rw [htry] at h
          obtain ⟨u, y1, y2, y3, y4, m1, m2, t, hd, htne, htnd, hl⟩ := ih h
          exact ⟨c :: u, y1, y2, y3, y4, m1, m2, t, hd, htne, htnd, by simp [hl]⟩

theorem searchYearMonth_pinned (u t : List Char) (y1 y2 y3 y4 m1 m2 : Char)
    (hy1 : y1.isDigit) (hy2 : y2.isDigit) (hy3 : y3.isDigit) (hy4 : y4.isDigit)
    (hm1 : m1.isDigit) (hm2 : m2.isDigit)
    (ht : t ≠ []) (hnd : noDot t = true) :
    searchYearMonth (u ++ yearMonthSeg y1 y2 y3 y4 m1 m2 ++ '.' :: t) =
      some ([y1, y2, y3, y4], [m1, m2]) := by
  induction u with
  | nil =>
      have hseg : yearMonthSeg y1 y2 y3 y4 m1 m2 ++ '.' :: t =
          '-' :: (y1 :: y2 :: y3 :: y4 :: '-' :: m1 :: m2 :: '.' :: t) := by
        simp [yearMonthSeg]
      rw [List.nil_append, hseg, searchYearMonth_cons, ← hseg,
        tryYearMonth_of_seg y1 y2 y3 y4 m1 m2 t hy1 hy2 hy3 hy4 hm1 hm2 ht hnd]
  | cons c u2 ih =>
      have hnone : tryYearMonth (c :: (u2 ++ yearMonthSeg y1 y2 y3 y4 m1 m2 ++ '.' :: t)) = none := by
        apply tryYearMonth_none_of_len _ (c :: (u2 ++ yearMonthSeg y1 y2 y3 y4 m1 m2)) t
        · simp [yearMonthSeg]
        · exact hnd
        · simp [yearMonthSeg]
      simp only [List.cons_append]
      rw [searchYearMonth_cons, hnone]
      simpa using ih

theorem tryYear_shape (l : List Char) (r : List Char)
    (h : tryYear l = some r) :
    ∃ y1 y2 y3 y4 t,
      (y1.isDigit ∧ y2.isDigit ∧ y3.isDigit ∧ y4.isDigit) ∧
      t ≠ [] ∧ noDot t = true ∧
      l = yearSeg y1 y2 y3 y4 ++ '.' :: t ∧
      r = [y1, y2, y3, y4] := by
  unfold tryYear at h
  split at h
  · split at h
    · next hc =>
        simp only [Bool.and_eq_true, beq_iff_eq, and_assoc] at hc
        obtain ⟨rfl, hy1, hy2, hy3, hy4, hla⟩ := hc
        obtain ⟨t, rfl, htne, htnd⟩ := extLookahead_shape _ hla
        injection h with h
        exact ⟨_, _, _, _, t, ⟨hy1, hy2, hy3, hy4⟩, htne, htnd,
          by simp [yearSeg], h.symm⟩
    · exact absurd h (by simp)
  · exact absurd h (by simp)

theorem tryYear_of_seg (y1 y2 y3 y4 : Char) (t : List Char)
    (hy1 : y1.isDigit) (hy2 : y2.isDigit) (hy3 : y3.isDigit) (hy4 : y4.isDigit)
    (ht : t ≠ []) (hnd : noDot t = true) :
    tryYear (yearSeg y1 y2 y3 y4 ++ '.' :: t) = some [y1, y2, y3, y4] := by
  simp [yearSeg, tryYear, hy1, hy2, hy3, hy4, extLookahead_cons t ht hnd]

theorem tryYear_none_of_len (l u t : List Char) (hl : l = u ++ '.' :: t)
    (hnd : noDot t = true) (hu : u.length ≠ 5) : tryYear l = none := by
  cases hfd : tryYear l with
  | none => rfl
  | some r =>
      exfalso
      obtain ⟨y1, y2, y3, y4, s, _, _, hsnd, hl2, _⟩ := tryYear_shape l r hfd
      rw [hl] at hl2
      obtain ⟨hpre, -⟩ := lastDot_unique hl2 hnd hsnd
      apply hu
      rw [hpre, yearSeg]
      rfl

theorem searchYear_cons (c : Char) (rest : List Char) :
    searchYear (c :: rest) =
      match tryYear (c :: rest) with
      | some r => some r
      | none => searchYear rest := rfl

theorem searchYear_matches (l : List Char) (r : List Char)
    (h : searchYear l = some r) : MatchesYear l := by
  induction l with
  | nil => simp [searchYear] at h
  | cons c rest ih =>
      unfold searchYear at h
      cases htry : tryYear (c :: rest) with
      | some r2 =>
          obtain ⟨y1, y2, y3, y4, t, hd, htne, htnd, hl, -⟩ := tryYear_shape _ _ htry
          exact ⟨[], y1, y2, y3, y4, t, hd, htne, htnd, by simpa using hl⟩
      | none =>
          rw [htry] at h
          obtain ⟨u, y1, y2, y3, y4, t, hd, htne, htnd, hl⟩ := ih h
          exact ⟨c :: u, y1, y2, y3, y4, t, hd, htne, htnd, by simp [hl]⟩

theorem searchYear_pinned (u t : List Char) (y1 y2 y3 y4 : Char)
    (hy1 : y1.isDigit) (hy2 : y2.isDigit) (hy3 : y3.isDigit) (hy4 : y4.isDigit)
    (ht : t ≠ []) (hnd : noDot t = true) :
    searchYear (u ++ yearSeg y1 y2 y3 y4 ++ '.' :: t) = some [y1, y2, y3, y4] := by
  induction u with
  | nil =>
      have hseg : yearSeg y1 y2 y3 y4 ++ '.' :: t =
          '-' :: (y1 :: y2 :: y3 :: y4 :: '.' :: t) := by
        simp [yearSeg]
      rw [List.nil_append, hseg, searchYear_cons, ← hseg,
        tryYear_of_seg y1 y2 y3 y4 t hy1 hy2 hy3 hy4 ht hnd]
  | cons c u2 ih =>
      have hnone : tryYear (c :: (u2 ++ yearSeg y1 y2 y3 y4 ++ '.' :: t)) = none := by
        apply tryYear_none_of_len _ (c :: (u2 ++ yearSeg y1 y2 y3 y4)) t
        · simp [yearSeg]
        · exact hnd
        · simp [yearSeg]
      simp only [List.cons_append]
      rw [searchYear_cons, hnone]
      simpa using ih

/-- On a basename whose stem ends in the full-date segment, the year-month
regex finds nothing: every candidate match is pinned to the final dot, and the
eight characters before that dot do not fit `-\d{4}-\d{2}`. -/
theorem searchYearMonth_none_of_fullDate (u t : List Char)
    (y1 y2 y3 y4 m1 m2 d1 d2 : Char)
    (hy3 : y3.isDigit) (hnd : noDot t = true) :
    searchYearMonth (u ++ fullDateSeg y1 y2 y3 y4 m1 m2 d1 d2 ++ '.' :: t) = none := by
  cases hs : searchYearMonth (u ++ fullDateSeg y1 y2 y3 y4 m1 m2 d1 d2 ++ '.' :: t) with
  | none => rfl
  | some r =>
      exfalso
      obtain ⟨v, a1, a2, a3, a4, b1, b2, s, hdig, hsne, hsnd, heq⟩ :=
        searchYearMonth_matches _ _ hs
      obtain ⟨hpre, -⟩ := lastDot_unique heq.symm hsnd hnd
      have h3 : (u ++ ['-', y1, y2]) ++ [y3, y4, '-', m1, m2, '-', d1, d2] =
          v ++ ['-', a1, a2, a3, a4, '-', b1, b2] := by
        simpa [fullDateSeg, yearMonthSeg, List.append_assoc] using hpre.symm
      have h4 := (List.append_inj' h3 (by simp)).2
      simp only [List.cons.injEq] at h4
      rw [h4.1] at hy3
      exact absurd hy3 (by decide)

/-- On a basename whose stem ends in the full-date segment, the year-only
regex finds nothing either. -/
theorem searchYear_none_of_fullDate (u t : List Char)
    (y1 y2 y3 y4 m1 m2 d1 d2 : Char)
    (hm1 : m1.isDigit) (hnd : noDot t = true) :
    searchYear (u ++ fullDateSeg y1 y2 y3 y4 m1 m2 d1 d2 ++ '.' :: t) = none := by
  cases hs : searchYear (u ++ fullDateSeg y1 y2 y3 y4 m1 m2 d1 d2 ++ '.' :: t) with
  | none => rfl
  | some r =>
      exfalso
      obtain ⟨v, a1, a2, a3, a4, s, hdig, hsne, hsnd, heq⟩ := searchYear_matches _ _ hs
      obtain ⟨hpre, -⟩ := lastDot_unique heq.symm hsnd hnd
      have h3 : (u ++ ['-', y1, y2, y3, y4, '-']) ++ [m1, m2, '-', d1, d2] =
          v ++ ['-', a1, a2, a3, a4] := by
        simpa [fullDateSeg, yearSeg, List.append_assoc] using hpre.symm
      have h4 := (List.append_inj' h3 (by simp)).2
      simp only [List.cons.injEq] at h4
      rw [h4.1] at hm1
      exact absurd hm1 (by decide)

theorem not_matchesFullDate_of_search_none (l : List Char)
    (h : searchFullDate l = none) : ¬ MatchesFullDate l := by
  rintro ⟨u, y1, y2, y3, y4, m1, m2, d1, d2, t,
    ⟨hy1, hy2, hy3, hy4, hm1, hm2, hd1, hd2⟩, ht, hnd, rfl⟩
  rw [searchFullDate_pinned u t y1 y2 y3 y4 m1 m2 d1 d2
    hy1 hy2 hy3 hy4 hm1 hm2 hd1 hd2 ht hnd] at h
  exact absurd h (by simp)

theorem not_matchesYearMonth_of_search_none (l : List Char)
    (h : searchYearMonth l = none) : ¬ MatchesYearMonth l := by
  rintro ⟨u, y1, y2, y3, y4, m1, m2, t, ⟨hy1, hy2, hy3, hy4, hm1, hm2⟩, ht, hnd, rfl⟩
  rw [searchYearMonth_pinned u t y1 y2 y3 y4 m1 m2 hy1 hy2 hy3 hy4 hm1 hm2 ht hnd] at h
  exact absurd h (by simp)

theorem not_matchesYear_of_search_none (l : List Char)
    (h : searchYear l = none) : ¬ MatchesYear l := by
  rintro ⟨u, y1, y2, y3, y4, t, ⟨hy1, hy2, hy3, hy4⟩, ht, hnd, rfl⟩
  rw [searchYear_pinned u t y1 y2 y3 y4 hy1 hy2 hy3 hy4 ht hnd] at h
  exact absurd h (by simp)

/-- C1: for every filename whose basename stem ends with `-YYYY-MM-DD`
immediately before the extension separator, the parser returns
`(YYYY, MM, DD)` verbatim, and neither the year-month nor the year-only
pattern matches the filename at all. -/
theorem full_date_parse (fn u t : List Char) (y1 y2 y3 y4 m1 m2 d1 d2 : Char)
    (hy1 : y1.isDigit) (hy2 : y2.isDigit) (hy3 : y3.isDigit) (hy4 : y4.isDigit)
    (hm1 : m1.isDigit) (hm2 : m2.isDigit) (hd1 : d1.isDigit) (hd2 : d2.isDigit)
    (ht : t ≠ []) (hnd : noDot t = true)
    (hb : basename fn = u ++ fullDateSeg y1 y2 y3 y4 m1 m2 d1 d2 ++ '.' :: t) :
    extract_date_from_filename fn =
      some (String.mk [y1, y2, y3, y4], String.mk [m1, m2], String.mk [d1, d2])
  ∧ searchYearMonth (basename fn) = none
  ∧ searchYear (basename fn) = none := by
  have hfd := searchFullDate_pinned u t y1 y2 y3 y4 m1 m2 d1 d2
    hy1 hy2 hy3 hy4 hm1 hm2 hd1 hd2 ht hnd
  have hym := searchYearMonth_none_of_fullDate u t y1 y2 y3 y4 m1 m2 d1 d2 hy3 hnd
  have hyr := searchYear_none_of_fullDate u t y1 y2 y3 y4 m1 m2 d1 d2 hm1 hnd
  rw [← hb] at hfd hym hyr
  refine ⟨?_, hym, hyr⟩
  unfold extract_date_from_filename
  rw [hfd]

/-- Witness for C1: `vacation-1987-08-01.jpg` parses to `("1987","08","01")`
and matches neither coarser pattern. -/
theorem full_date_parse_witness :
    extract_date_from_filename ("vacation-1987-08-01.jpg".toList) =
      some ("1987", "08", "01")
  ∧ searchYearMonth (basename ("vacation-1987-08-01.jpg".toList)) = none
  ∧ searchYear (basename ("vacation-1987-08-01.jpg".toList)) = none :=
  full_date_parse ("vacation-1987-08-01.jpg".toList) ("vacation".toList)
    ("jpg".toList) '1' '9' '8' '7' '0' '8' '0' '1'
    (by decide) (by decide) (by decide) (by decide) (by decide) (by decide)
    (by decide) (by decide) (by decide) (by decide) (by decide)

/-- C2: for a filename not matching the full-date pattern, a stem ending in
`-YYYY-MM` before the extension separator yields `(YYYY, MM, "01")`; failing
that, a stem ending in `-YYYY` yields `(YYYY, "01", "01")`; otherwise no date
is found.  The digit characters are arbitrary: no calendar validation. -/
theorem coarser_date_parse (fn : List Char)
    (hnofd : ¬ MatchesFullDate (basename fn)) :
    (∀ u t : List Char, ∀ y1 y2 y3 y4 m1 m2 : Char,
       y1.isDigit → y2.isDigit → y3.isDigit → y4.isDigit →
       m1.isDigit → m2.isDigit → t ≠ [] → noDot t = true →
       basename fn = u ++ yearMonthSeg y1 y2 y3 y4 m1 m2 ++ '.' :: t →
       extract_date_from_filename fn =
         some (String.mk [y1, y2, y3, y4], String.mk [m1, m2], "01"))
  ∧ (¬ MatchesYearMonth (basename fn) →
     ∀ u t : List Char, ∀ y1 y2 y3 y4 : Char,
       y1.isDigit → y2.isDigit → y3.isDigit → y4.isDigit →
       t ≠ [] → noDot t = true →
       basename fn = u ++ yearSeg y1 y2 y3 y4 ++ '.' :: t →
       extract_date_from_filename fn =
         some (String.mk [y1, y2, y3, y4], "01", "01"))
  ∧ (¬ MatchesYearMonth (basename fn) → ¬ MatchesYear (basename fn) →
       extract_date_from_filename fn = none) := by
  have hfdnone : searchFullDate (basename fn) = none := by
    cases hs : searchFullDate (basename fn) with
    | none => rfl
    | some r => exact absurd (searchFullDate_matches _ _ hs) hnofd
  refine ⟨?_, ?_, ?_⟩
  · intro u t y1 y2 y3 y4 m1 m2 hy1 hy2 hy3 hy4 hm1 hm2 ht hnd hb
    have hym := searchYearMonth_pinned u t y1 y2 y3 y4 m1 m2
      hy1 hy2 hy3 hy4 hm1 hm2 ht hnd
    rw [← hb] at hym
    unfold extract_date_from_filename
    rw [hfdnone, hym]
  · intro hnoym u t y1 y2 y3 y4 hy1 hy2 hy3 hy4 ht hnd hb
    have hymnone : searchYearMonth (basename fn) = none := by
      cases hs : searchYearMonth (basename fn) with
      | none => rfl
      | some r => exact absurd (searchYearMonth_matches _ _ hs) hnoym
    have hyr := searchYear_pinned u t y1 y2 y3 y4 hy1 hy2 hy3 hy4 ht hnd
    rw [← hb] at hyr
    unfold extract_date_from_filename
    rw [hfdnone, hymnone, hyr]
  · intro hnoym hnoyr
    have hymnone : searchYearMonth (basename fn) = none := by
      cases hs : searchYearMonth (basename fn) with
      | none => rfl
      | some r => exact absurd (searchYearMonth_matches _ _ hs) hnoym
    have hyrnone : searchYear (basename fn) = none := by
      cases hs : searchYear (basename fn) with
      | none => rfl
      | some r => exact absurd (searchYear_matches _ _ hs) hnoyr
    unfold extract_date_from_filename
    rw [hfdnone, hymnone, hyrnone]

/-- Witness for C2: `trip-1987-13.jpg` (month 13: no calendar validation)
yields `("1987","13","01")`; `summer-1987.jpg` yields `("1987","01","01")`;
`photo.jpg` yields no date. -/
theorem coarser_date_parse_witness :
    extract_date_from_filename ("trip-1987-13.jpg".toList) =
      some ("1987", "13", "01")
  ∧ extract_date_from_filename ("summer-1987.jpg".toList) =
      some ("1987", "01", "01")
  ∧ extract_date_from_filename ("photo.jpg".toList) = none :=
  ⟨(coarser_date_parse ("trip-1987-13.jpg".toList)
      (not_matchesFullDate_of_search_none _ (by decide))).1
    ("trip".toList) ("jpg".toList) '1' '9' '8' '7' '1' '3'
    (by decide) (by decide) (by decide) (by decide) (by decide) (by decide)
    (by decide) (by decide) (by decide),
   (coarser_date_parse ("summer-1987.jpg".toList)
      (not_matchesFullDate_of_search_none _ (by decide))).2.1
    (not_matchesYearMonth_of_search_none _ (by decide))
    ("summer".toList) ("jpg".toList) '1' '9' '8' '7'
    (by decide) (by decide) (by decide) (by decide) (by decide) (by decide)
    (by decide),
   (coarser_date_parse ("photo.jpg".toList)
      (not_matchesFullDate_of_search_none _ (by decide))).2.2
    (not_matchesYearMonth_of_search_none _ (by decide))
    (not_matchesYear_of_search_none _ (by decide))⟩

/-- C7 counterexample: `--lat` without `--lon` hits `parser.error`, which
exits with status 2, not 1 as claimed. -/
theorem gps_exit_code_counterexample :
    gps_main ⟨some 1, none, false, true, true, none, true⟩ = 2
  ∧ gps_main ⟨some 1, none, false, true, true, none, true⟩ ≠ 1 := by
  constructor
  · rfl
  · decide

/-- C7 amended: invalid target path, out-of-range coordinate, failed copy
source and failed write exit with status 1 and the success paths with 0, but
the missing mutually-required argument (`--lat` without `--lon`) exits with
status 2 via `parser.error`. -/
theorem gps_exit_codes_amended :
    (∀ env : GpsEnv, env.lat.isSome = true → env.source_given = false →
       env.lon.isSome = false → gps_main env = 2)
  ∧ (∀ env : GpsEnv, env.lat.isSome = true → env.source_given = false →
       env.lon.isSome = true → env.image_exists = false → gps_main env = 1)
  ∧ (∀ env : GpsEnv, env.lat = none → env.source_given = true →
       env.image_exists = false → gps_main env = 1)
  ∧ (∀ env : GpsEnv, ∀ la lo : ℚ, env.lat = some la → env.lon = some lo →
       env.source_given = false → env.image_exists = true →
       (validate_coordinates (some la) (some lo)).1 = false → gps_main env = 1)
  ∧ (∀ env : GpsEnv, ∀ la lo : ℚ, env.lat = some la → env.lon = some lo →
       env.source_given = false → env.image_exists = true →
       (validate_coordinates (some la) (some lo)).1 = true →
       gps_main env = if env.write_ok then 0 else 1)
  ∧ (∀ env : GpsEnv, env.lat = none → env.source_given = true →
       env.image_exists = true →
       extract_gps_from_image env.source_exists env.tool_records = none →
       gps_main env = 1)
  ∧ (∀ env : GpsEnv, ∀ g : GpsData, env.lat = none → env.source_given = true →
       env.image_exists = true →
       extract_gps_from_image env.source_exists env.tool_records = some g →
       gps_main env = if env.write_ok then 0 else 1) := by
  refine ⟨?_, ?_, ?_, ?_, ?_, ?_, ?_⟩
  · rintro ⟨lat, lon, sg, ie, se, tr, wo⟩ h1 h2 h3
    simp only at h1 h2 h3
    subst h2
    simp [gps_main, h1, h3]
  · rintro ⟨lat, lon, sg, ie, se, tr, wo⟩ h1 h2 h3 h4
    simp only at h1 h2 h3 h4
    subst h2; subst h4
    simp [gps_main, h1, h3]
  · rintro ⟨lat, lon, sg, ie, se, tr, wo⟩ h1 h2 h3
    simp only at h1 h2 h3
    subst h1; subst h2; subst h3
    simp [gps_main]
  · rintro ⟨lat, lon, sg, ie, se, tr, wo⟩ la lo h1 h2 h3 h4 h5
    simp only at h1 h2 h3 h4 h5
    subst h1; subst h2; subst h3; subst h4
    simp [gps_main, h5]
  · rintro ⟨lat, lon, sg, ie, se, tr, wo⟩ la lo h1 h2 h3 h4 h5
    simp only at h1 h2 h3 h4 h5
    subst h1; subst h2; subst h3; subst h4
    cases wo <;> simp [gps_main, h5, update_gps_data]
  · rintro ⟨lat, lon, sg, ie, se, tr, wo⟩ h1 h2 h3 h4
    simp only at h1 h2 h3 h4
    subst h1; subst h2; subst h3
    cases lon <;> simp [gps_main, h4]
  · rintro ⟨lat, lon, sg, ie, se, tr, wo⟩ g h1 h2 h3 h4
    simp only at h1 h2 h3 h4
    subst h1; subst h2; subst h3
    cases lon <;> cases wo <;> simp [gps_main, h4, update_gps_data]

/-- Witness for C7 (amended): concrete runs of every exit-code case. -/
theorem gps_exit_codes_amended_witness :
    gps_main ⟨some 1, none, false, true, true, none, true⟩ = 2
  ∧ gps_main ⟨some 1, some 2, false, false, true, none, true⟩ = 1
  ∧ gps_main ⟨none, none, true, false, true, none, true⟩ = 1
  ∧ gps_main ⟨some 91, some 0, false, true, true, none, true⟩ = 1
  ∧ gps_main ⟨some 1, some 2, false, true, true, none, true⟩ = 0
  ∧ gps_main ⟨none, none, true, true, false, none, true⟩ = 1
  ∧ gps_main ⟨none, none, true, true, true,
      some [⟨some 1, some 2, some "N", some "E"⟩], true⟩ = 0 :=
  ⟨gps_exit_codes_amended.1 ⟨some 1, none, false, true, true, none, true⟩ rfl rfl rfl,
   gps_exit_codes_amended.2.1 ⟨some 1, some 2, false, false, true, none, true⟩ rfl rfl rfl rfl,
   gps_exit_codes_amended.2.2.1 ⟨none, none, true, false, true, none, true⟩ rfl rfl rfl,
   gps_exit_codes_amended.2.2.2.1 ⟨some 91, some 0, false, true, true, none, true⟩ 91 0
     rfl rfl rfl rfl (by decide),
   gps_exit_codes_amended.2.2.2.2.1 ⟨some 1, some 2, false, true, true, none, true⟩ 1 2
     rfl rfl rfl rfl (by decide),
   gps_exit_codes_amended.2.2.2.2.2.1 ⟨none, none, true, true, false, none, true⟩
     rfl rfl rfl rfl,
   gps_exit_codes_amended.2.2.2.2.2.2 ⟨none, none, true, true, true,
       some [⟨some 1, some 2, some "N", some "E"⟩], true⟩
     ⟨1, 2, "N", "E", 1, 2⟩ rfl rfl rfl (by decide)⟩

theorem foldl_process_file_counts (tool : List Char → Bool)
    (l : List (List Char)) (acc : Nat × Nat) :
    (l.foldl (process_file tool) acc).1 + (l.foldl (process_file tool) acc).2 =
      acc.1 + acc.2 + l.length := by
  induction l generalizing acc with
  | nil => simp
  | cons f l2 ih =>
      rw [List.foldl_cons, ih]
      have hstep : (process_file tool acc f).1 + (process_file tool acc f).2 =
          acc.1 + acc.2 + 1 := by
        unfold process_file
        cases extract_date_from_filename f with
        | none => simp; omega
        | some d =>
            by_cases htool : tool f = true <;> simp [htool] <;> omega
      simp only [List.length_cons]
      omega

/-- C8: a failing external tool is recoverable per file in the batch
date-updater — the file is counted as skipped, every glob-selected file still
contributes to exactly one of the two counters, and the run exits 0 — while
the same failure is fatal (exit 1) in the single-shot GPS setter. -/
theorem batch_tool_failure_recoverable :
    (∀ entries : List (List Char), ∀ tool : List Char → Bool,
       (filename_main true entries tool).1 = 0)
  ∧ (∀ tool : List Char → Bool, ∀ acc : Nat × Nat, ∀ f : List Char,
     ∀ d : String × String × String,
       extract_date_from_filename f = some d → tool f = false →
       process_file tool acc f = (acc.1, acc.2 + 1))
  ∧ (∀ entries : List (List Char), ∀ tool : List Char → Bool,
       (filename_main true entries tool).2.1 + (filename_main true entries tool).2.2 =
         (entries.filter glob_match_star_jpg).length)
  ∧ (∀ env : GpsEnv, ∀ la lo : ℚ, env.lat = some la → env.lon = some lo →
       env.source_given = false → env.image_exists = true →
       (validate_coordinates (some la) (some lo)).1 = true →
       env.write_ok = false → gps_main env = 1) := by
  refine ⟨?_, ?_, ?_, ?_⟩
  · intro entries tool
    simp [filename_main]
  · intro tool acc f d hx htool
    unfold process_file
    rw [hx, htool]
    simp
  · intro entries tool
    simp only [filename_main, Bool.true_eq_false, if_false]
    simpa using foldl_process_file_counts tool (entries.filter glob_match_star_jpg) (0, 0)
  · intro env la lo h1 h2 h3 h4 h5 h6
    have := gps_exit_codes_amended.2.2.2.2.1 env la lo h1 h2 h3 h4 h5
    rw [this, h6]
    rfl

/-- Witness for C8: a batch over one full-date file with a failing tool still
exits 0 and counts the file as skipped; the GPS setter with a failing write
exits 1. -/
theorem batch_tool_failure_recoverable_witness :
    (filename_main true ["a-2000-01-15.jpg".toList] (fun _ => false)).1 = 0
  ∧ process_file (fun _ => false) (0, 0) ("a-2000-01-15.jpg".toList) = (0, 1)
  ∧ (filename_main true ["a-2000-01-15.jpg".toList] (fun _ => false)).2.1 +
      (filename_main true ["a-2000-01-15.jpg".toList] (fun _ => false)).2.2 =
      (["a-2000-01-15.jpg".toList].filter glob_match_star_jpg).length
  ∧ gps_main ⟨some 1, some 2, false, true, true, none, false⟩ = 1 :=
  ⟨batch_tool_failure_recoverable.1 ["a-2000-01-15.jpg".toList] (fun _ => false),
   batch_tool_failure_recoverable.2.1 (fun _ => false) (0, 0)
     ("a-2000-01-15.jpg".toList) ("2000", "01", "15") (by decide) rfl,
   batch_tool_failure_recoverable.2.2.1 ["a-2000-01-15.jpg".toList] (fun _ => false),
   batch_tool_failure_recoverable.2.2.2 ⟨some 1, some 2, false, true, true, none, false⟩
     1 2 rfl rfl rfl rfl (by decide) rfl⟩

end ExifScripts
